import Mathlib

/-!
Shallow embedding of the ReKo update server's version-negotiation core
(`src/apps/backend/index.js`) and the website server's fingerprint
middleware (`src/unnamed/part_000`), with theorems settling the frozen
claims about the specification.
-/

namespace ReKo

/-! ## VersionComparator (`compareVersions`, backend/index.js lines 73-88) -/

/-- JavaScript whitespace characters skipped by `parseInt`. -/
def jsWhitespace (c : Char) : Bool :=
  c == ' ' || c == '\t' || c == '\n' || c == '\r' ||
  c == '\u000b' || c == '\u000c' || c == ' '

/-- Value of a character as a digit in the given radix (10 or 16), if valid. -/
def digitVal (radix : Nat) (c : Char) : Option Nat :=
  if c.isDigit then some (c.toNat - '0'.toNat)
  else if radix == 16 && 'a' ≤ c && c ≤ 'f' then some (c.toNat - 'a'.toNat + 10)
  else if radix == 16 && 'A' ≤ c && c ≤ 'F' then some (c.toNat - 'A'.toNat + 10)
  else none

/-- JavaScript `parseInt(s)` with no explicit radix: skip leading whitespace,
read an optional sign, detect an `0x`/`0X` hex prefix, then take the longest
prefix of valid digits; `none` models `NaN` (no digits found). -/
def parseIntJS (s : String) : Option Int :=
  let cs := s.toList.dropWhile jsWhitespace
  let (sign, cs1) : Int × List Char :=
    match cs with
    | '-' :: rest => (-1, rest)
    | '+' :: rest => (1, rest)
    | _ => (1, cs)
  let (radix, cs2) : Nat × List Char :=
    match cs1 with
    | '0' :: 'x' :: rest => (16, rest)
    | '0' :: 'X' :: rest => (16, rest)
    | _ => (10, cs1)
  let digits := cs2.takeWhile (fun c => (digitVal radix c).isSome)
  if digits.isEmpty then none
  else some (sign * (digits.foldl (fun acc c => acc * (radix : Int) + (((digitVal radix c).getD 0 : Nat) : Int)) (0 : Int)))

/-- Model of `parseInt(x) || 0`: a segment that does not parse (NaN) coerces to 0;
a parsed 0 (falsy) also yields 0. -/
def segToInt (s : String) : Int :=
  (parseIntJS s).getD 0

/-- Model of `version.split(/[.-]/)`: split a string at every `.` or `-`,
keeping empty segments (JavaScript `split` semantics). -/
def splitSegsAux : List Char → List (List Char)
  | [] => [[]]
  | c :: rest =>
    let r := splitSegsAux rest
    if c == '.' || c == '-' then [] :: r
    else
      match r with
      | [] => [[c]]
      | h :: t => (c :: h) :: t

/-- Split a version string on `.` and `-` into its raw segments. -/
def splitSegs (s : String) : List String :=
  (splitSegsAux s.toList).map List.asString

/-- Model of `version.split(/[.-]/).map((x) => parseInt(x) || 0)`. -/
def parseVersion (v : String) : List Int :=
  (splitSegs v).map segToInt

/-- The comparison loop of `compareVersions` once the left sequence is
exhausted: each remaining right element is compared against the padding 0. -/
def cmpZero : List Int → Int
  | [] => 0
  | b :: bs => if (0 : Int) < b then -1 else if b < 0 then 1 else cmpZero bs

/-- The element-wise comparison loop of `compareVersions`: the shorter
sequence is padded with zeros (`v1parts[i] || 0`), and the first index at
which the integers differ decides the result. -/
def cmpSegs : List Int → List Int → Int
  | [], bs => cmpZero bs
  | a :: as, [] => if a < 0 then -1 else if (0 : Int) < a then 1 else cmpSegs as []
  | a :: as, b :: bs => if a < b then -1 else if b < a then 1 else cmpSegs as bs

/-- The function `compareVersions(version1, version2)` from backend/index.js lines 73-88. -/
def compareVersions (version1 version2 : String) : Int :=
  cmpSegs (parseVersion version1) (parseVersion version2)

/-! ## UpdateStatsTracker state (`updateStats`, backend/index.js lines 55-60) -/

/-- JavaScript truthiness of an optional query-parameter string:
`undefined` and the empty string are falsy, every other string is truthy. -/
def jsTruthy : Option String → Bool
  | none => false
  | some s => s != ""

/-- Model of `Map.get(k)` on the association-list model of a JavaScript `Map`. -/
def mapGet (m : List (String × Nat)) (k : String) : Option Nat :=
  (m.find? (fun p => p.1 == k)).map (·.2)

/-- Model of `Map.set(k, v)`: overwrite an existing binding in place, else append
in insertion order. -/
def mapSet : List (String × Nat) → String → Nat → List (String × Nat)
  | [], k, v => [(k, v)]
  | (k0, v0) :: rest, k, v =>
    if k0 == k then (k, v) :: rest else (k0, v0) :: mapSet rest k v

/-- The `updateStats` object (backend/index.js lines 55-60): counters plus
the `clientVersions` map, modelled as an insertion-ordered association list. -/
structure Stats where
  totalChecks : Nat
  checksToday : Nat
  lastReset : String
  clientVersions : List (String × Nat)
deriving DecidableEq, Repr

/-- The `updateStats` state at process start (backend/index.js lines 55-60), with the
start day's `toDateString()` value passed in. -/
def initialStats (day : String) : Stats :=
  { totalChecks := 0, checksToday := 0, lastReset := day, clientVersions := [] }

/-- The function `resetDailyStats()` (backend/index.js lines 63-70): if the current
`toDateString()` differs from `lastReset`, zero `checksToday` and move
`lastReset` to today; otherwise do nothing. -/
def resetDailyStats (today : String) (s : Stats) : Stats :=
  if s.lastReset ≠ today then { s with checksToday := 0, lastReset := today } else s

/-- The statistics side effect of one `/api/updates/check` request
(backend/index.js lines 92 and 102-108): daily reset, then unconditional
increments of `totalChecks` and `checksToday`, then a `clientVersions` bump
when a truthy version was reported. -/
def recordCheck (today : String) (version : Option String) (s : Stats) : Stats :=
  let s1 := resetDailyStats today s
  let s2 := { s1 with totalChecks := s1.totalChecks + 1, checksToday := s1.checksToday + 1 }
  match version with
  | some v =>
    if v != "" then
      { s2 with clientVersions := mapSet s2.clientVersions v ((mapGet s2.clientVersions v).getD 0 + 1) }
    else s2
  | none => s2

/-! ## Version records and the check endpoint (backend/index.js lines 22-52, 91-157) -/

/-- One entry of the `appVersions` in-memory store (backend/index.js lines 22-52). -/
structure AppInfo where
  currentVersion : String
  latestVersion : String
  releaseDate : String
  downloadUrl : String
  releaseNotes : List String
  critical : Bool
  minimumVersion : String
  changelog : String
deriving DecidableEq, Repr

/-- The `appVersions` object: an insertion-ordered map from app name to record. -/
def Store := List (String × AppInfo)

/-- Lookup `appVersions[appName]`. -/
def storeGet (store : Store) (name : String) : Option AppInfo :=
  (store.find? (fun p => p.1 == name)).map (·.2)

/-- Model of `Object.keys(appVersions)`. -/
def storeKeys (store : Store) : List String :=
  store.map (·.1)

/-- A JSON value as it appears in the check response body, distinguishing
`null` from a string or string-array value. -/
inductive JVal where
  | jnull
  | jbool (b : Bool)
  | jstr (s : String)
  | jarr (xs : List String)
deriving DecidableEq, Repr

/-- The query parameters of `/api/updates/check` (backend/index.js lines
94-99); `none` models an absent parameter (`undefined`). -/
structure CheckQuery where
  app : Option String
  version : Option String
  platform : Option String
  arch : Option String
deriving DecidableEq, Repr

/-- The three responses the `/api/updates/check` handler can produce:
the 404 body (unknown application, with `availableApps`), the 400 body
(missing version), or the 200 decision body as an ordered key-value list. -/
inductive CheckResult where
  | notFound (availableApps : List String)
  | missingVersion
  | ok (body : List (String × JVal))
deriving DecidableEq, Repr

/-- Model of `platform || "unknown"` and `arch || "unknown"` (backend/index.js lines 146-147). -/
def orUnknown : Option String → String
  | none => "unknown"
  | some s => if s == "" then "unknown" else s

/-- Key lookup in a decision body. -/
def bodyGet (body : List (String × JVal)) (k : String) : Option JVal :=
  (body.find? (fun p => p.1 == k)).map (·.2)

/-- The body of a `CheckResult.ok`, or `[]` for the error responses. -/
def decisionBody : CheckResult → List (String × JVal)
  | .ok body => body
  | _ => []

/-- The `/api/updates/check` handler (backend/index.js lines 91-157):
daily reset, destructure the query with `app` defaulting to `"myapp"`,
increment the counters, bump `clientVersions` for a truthy version, then
look up the application (404 if unknown), require a truthy version (400 if
absent), and finally build the decision object in source field order.
`today` is `new Date().toDateString()`, `now` is `new Date().toISOString()`. -/
def checkHandler (store : Store) (today now : String) (q : CheckQuery) (s : Stats) :
    CheckResult × Stats :=
  let appName := q.app.getD "myapp"
  let s1 := recordCheck today q.version s
  match storeGet store appName with
  | none => (.notFound (storeKeys store), s1)
  | some appInfo =>
    match q.version with
    | none => (.missingVersion, s1)
    | some currentVersion =>
      if currentVersion == "" then (.missingVersion, s1)
      else
        let updateAvailable : Bool := compareVersions currentVersion appInfo.latestVersion < 0
        let isCritical : Bool :=
          appInfo.critical && decide (compareVersions currentVersion appInfo.minimumVersion < 0)
        let body : List (String × JVal) :=
          [ ("updateAvailable", .jbool updateAvailable)
          , ("critical", .jbool isCritical)
          , ("currentVersion", .jstr currentVersion)
          , ("latestVersion", .jstr appInfo.latestVersion)
          , ("releaseDate", .jstr appInfo.releaseDate)
          , ("downloadUrl", if updateAvailable then .jstr appInfo.downloadUrl else .jnull)
          , ("releaseNotes", if updateAvailable then .jarr appInfo.releaseNotes else .jnull)
          , ("changelog", if updateAvailable then .jstr appInfo.changelog else .jnull)
          , ("minimumVersion", .jstr appInfo.minimumVersion)
          , ("checkedAt", .jstr now)
          , ("platform", .jstr (orUnknown q.platform))
          , ("arch", .jstr (orUnknown q.arch)) ]
        (.ok body, s1)

/-- The `myapp` record of the initial `appVersions` (backend/index.js lines 23-37). -/
def myappInfo : AppInfo :=
  { currentVersion := "1.0.0"
  , latestVersion := "1.2.0"
  , releaseDate := "2024-12-01T10:00:00Z"
  , downloadUrl := "https://releases.myapp.com/v1.2.0"
  , releaseNotes :=
      [ "Added dark mode support"
      , "Fixed memory leak in background sync"
      , "Improved performance by 30%"
      , "Security updates" ]
  , critical := false
  , minimumVersion := "1.0.0"
  , changelog := "https://myapp.com/changelog/v1.2.0" }

/-- The `myapp-beta` record of the initial `appVersions` (backend/index.js lines 38-51). -/
def myappBetaInfo : AppInfo :=
  { currentVersion := "1.2.0"
  , latestVersion := "1.3.0-beta.1"
  , releaseDate := "2024-12-15T14:30:00Z"
  , downloadUrl := "https://releases.myapp.com/beta/v1.3.0-beta.1"
  , releaseNotes :=
      [ "New experimental AI features"
      , "Redesigned user interface"
      , "Performance improvements" ]
  , critical := false
  , minimumVersion := "1.2.0"
  , changelog := "https://myapp.com/changelog/v1.3.0-beta.1" }

/-- The initial `appVersions` store (backend/index.js lines 22-52). -/
def initialStore : Store :=
  [("myapp", myappInfo), ("myapp-beta", myappBetaInfo)]

/-! ## Stats operation sequences (for the counter invariant) -/

/-- One operation touching the `updateStats` state: a check request
(lines 92, 102-108) or a bare daily reset (line 63-70, also invoked by the
admin stats endpoint at line 237). -/
inductive StatsOp where
  | check (today : String) (version : Option String)
  | reset (today : String)

/-- Apply one stats operation. -/
def applyOp (s : Stats) : StatsOp → Stats
  | .check today version => recordCheck today version s
  | .reset today => resetDailyStats today s

/-- Run a sequence of stats operations from a starting state. -/
def runOps (s : Stats) (ops : List StatsOp) : Stats :=
  ops.foldl applyOp s

/-! ## Fingerprint middleware (`src/unnamed/part_000`, lines 22-41) -/

/-- The request attributes read by the fingerprint middleware; `none`
models an absent (`undefined`) attribute. -/
structure FpRequest where
  ip : Option String
  userAgent : Option String
  acceptLanguage : Option String
  acceptEncoding : Option String
  xForwardedFor : Option String
  secChUaPlatform : Option String
deriving DecidableEq, Repr

/-- Model of `.filter(Boolean)` over an array of `string | undefined` values:
`undefined` and the empty string are falsy and dropped, every other
string is kept. -/
def filterBoolean : List (Option String) → List String
  | [] => []
  | none :: rest => filterBoolean rest
  | some s :: rest => if s == "" then filterBoolean rest else s :: filterBoolean rest

/-- The `components` array of the middleware (part_000 lines 23-31) before
filtering: `req.ip`, four headers, and the first comma-separated entry of
`x-forwarded-for` (`?.split(",")[0]`). -/
def fpComponents (r : FpRequest) : List (Option String) :=
  [ r.ip
  , r.userAgent
  , r.acceptLanguage
  , r.acceptEncoding
  , r.xForwardedFor.map (fun s => (s.splitOn ",").headD s)
  , r.secChUaPlatform ]

/-- The filtered component list actually fed to the digest. -/
def fingerprintComponents (r : FpRequest) : List String :=
  filterBoolean (fpComponents r)

/-- Model of `components.join("|")`: the exact string handed to the SHA-256 digest. -/
def fingerprintInput (r : FpRequest) : String :=
  String.intercalate "|" (fingerprintComponents r)

/-! ## Lemmas about the comparison loop -/

theorem cmpZero_neg (bs : List Int) : cmpZero bs = -cmpSegs bs [] := by
  induction bs with
  | nil => simp [cmpZero, cmpSegs]
  | cons b bs ih =>
    simp only [cmpZero, cmpSegs]
    rcases lt_trichotomy b 0 with h | h | h
    · have h1 : ¬ (0 : Int) < b := by omega
      simp [h, h1]
    · subst h
      simpa using ih
    · have h1 : ¬ b < (0 : Int) := by omega
      simp [h, h1]

theorem cmpSegs_antisym (as bs : List Int) : cmpSegs as bs = -cmpSegs bs as := by
  induction as generalizing bs with
  | nil =>
    show cmpZero bs = -cmpSegs bs []
    exact cmpZero_neg bs
  | cons a as ih =>
    cases bs with
    | nil =>
      show cmpSegs (a :: as) [] = -cmpZero (a :: as)
      rw [cmpZero_neg, neg_neg]
    | cons b bs =>
      simp only [cmpSegs]
      rcases lt_trichotomy a b with h | h | h
      · have h1 : ¬ b < a := by omega
        simp [h, h1]
      · subst h
        have h1 : ¬ a < a := by omega
        simp [h1, ih]
      · have h1 : ¬ a < b := by omega
        simp [h, h1]

theorem cmpZero_range (bs : List Int) :
    cmpZero bs = -1 ∨ cmpZero bs = 0 ∨ cmpZero bs = 1 := by
  induction bs with
  | nil => simp [cmpZero]
  | cons b bs ih =>
    simp only [cmpZero]
    split
    · exact Or.inl rfl
    · split
      · exact Or.inr (Or.inr rfl)
      · exact ih

theorem cmpSegs_range (as bs : List Int) :
    cmpSegs as bs = -1 ∨ cmpSegs as bs = 0 ∨ cmpSegs as bs = 1 := by
  induction as generalizing bs with
  | nil => exact cmpZero_range bs
  | cons a as ih =>
    cases bs with
    | nil =>
      simp only [cmpSegs]
      split
      · exact Or.inl rfl
      · split
        · exact Or.inr (Or.inr rfl)
        · exact ih []
    | cons b bs =>
      simp only [cmpSegs]
      split
      · exact Or.inl rfl
      · split
        · exact Or.inr (Or.inr rfl)
        · exact ih bs

/-! ## Claims about the comparator -/

/-- C7: for all version strings `a` and `b`,
`compareVersions a b = -compareVersions b a`. -/
theorem compare_antisym (a b : String) :
    compareVersions a b = -compareVersions b a := by
  unfold compareVersions
  exact cmpSegs_antisym (parseVersion a) (parseVersion b)

/-- C8: the comparator's exact results on the spec's example pairs:
`"1.2"` equals `"1.2.0"`, `"1.10.0"` is above `"1.9.0"`, `"2.0.0"` is above
`"1.9.9"`, and `"1.0.0-beta"` equals `"1.0.0"` (the non-numeric segment
`"beta"` is treated as 0). -/
theorem compare_examples :
    compareVersions "1.2" "1.2.0" = 0 ∧
    compareVersions "1.10.0" "1.9.0" = 1 ∧
    compareVersions "2.0.0" "1.9.9" = 1 ∧
    compareVersions "1.0.0-beta" "1.0.0" = 0 := by
  refine ⟨?_, ?_, ?_, ?_⟩ <;> decide

/-- C9: on every pair of input strings, however malformed, the comparator
produces a value in `{-1, 0, +1}` (it is a total function and never
signals failure). -/
theorem compare_total_range (a b : String) :
    compareVersions a b = -1 ∨ compareVersions a b = 0 ∨ compareVersions a b = 1 := by
  unfold compareVersions
  exact cmpSegs_range (parseVersion a) (parseVersion b)

/-! ## Lemmas about the stats state -/

theorem resetDailyStats_totalChecks (today : String) (s : Stats) :
    (resetDailyStats today s).totalChecks = s.totalChecks := by
  unfold resetDailyStats
  split <;> rfl

theorem resetDailyStats_clientVersions (today : String) (s : Stats) :
    (resetDailyStats today s).clientVersions = s.clientVersions := by
  unfold resetDailyStats
  split <;> rfl

theorem resetDailyStats_checksToday_le (today : String) (s : Stats) :
    (resetDailyStats today s).checksToday ≤ s.checksToday := by
  unfold resetDailyStats
  split
  · exact Nat.zero_le _
  · exact Nat.le_refl _

theorem recordCheck_totalChecks (today : String) (v : Option String) (s : Stats) :
    (recordCheck today v s).totalChecks = s.totalChecks + 1 := by
  unfold recordCheck
  cases v with
  | none => simp [resetDailyStats_totalChecks]
  | some cv =>
    dsimp only
    split <;> simp [resetDailyStats_totalChecks]

theorem recordCheck_checksToday (today : String) (v : Option String) (s : Stats) :
    (recordCheck today v s).checksToday = (resetDailyStats today s).checksToday + 1 := by
  unfold recordCheck
  cases v with
  | none => rfl
  | some cv =>
    dsimp only
    split <;> rfl

theorem recordCheck_lastReset (today : String) (v : Option String) (s : Stats) :
    (recordCheck today v s).lastReset = (resetDailyStats today s).lastReset := by
  unfold recordCheck
  cases v with
  | none => rfl
  | some cv =>
    dsimp only
    split <;> rfl

theorem recordCheck_clientVersions_falsy (today : String) (v : Option String) (s : Stats)
    (h : jsTruthy v = false) :
    (recordCheck today v s).clientVersions = s.clientVersions := by
  unfold recordCheck
  cases v with
  | none => simp [resetDailyStats_clientVersions]
  | some cv =>
    have hcv : (cv != "") = false := by simpa [jsTruthy] using h
    simp [hcv, resetDailyStats_clientVersions]

theorem recordCheck_clientVersions_truthy (today : String) (cv : String) (s : Stats)
    (h : cv ≠ "") :
    (recordCheck today (some cv) s).clientVersions =
      mapSet s.clientVersions cv ((mapGet s.clientVersions cv).getD 0 + 1) := by
  have hcv : (cv != "") = true := by simpa using h
  simp [recordCheck, hcv, resetDailyStats_clientVersions]

theorem resetDailyStats_idem (today : String) (s : Stats) :
    resetDailyStats today (resetDailyStats today s) = resetDailyStats today s := by
  unfold resetDailyStats
  by_cases h : s.lastReset = today
  · simp [h]
  · simp [h]

/-! ## Claims about the stats tracker -/

/-- C6: when the current date string differs from `lastReset`, the daily
reset zeroes `checksToday` and moves `lastReset` to today while leaving
`totalChecks` and `clientVersions` unchanged, and a second call on the same
day is a no-op. -/
theorem resetDailyStats_spec (today : String) (s : Stats) (h : s.lastReset ≠ today) :
    (resetDailyStats today s).checksToday = 0 ∧
    (resetDailyStats today s).lastReset = today ∧
    (resetDailyStats today s).totalChecks = s.totalChecks ∧
    (resetDailyStats today s).clientVersions = s.clientVersions ∧
    resetDailyStats today (resetDailyStats today s) = resetDailyStats today s := by
  refine ⟨?_, ?_, resetDailyStats_totalChecks today s, resetDailyStats_clientVersions today s,
    resetDailyStats_idem today s⟩
  · simp [resetDailyStats, h]
  · simp [resetDailyStats, h]

/-- Witness for C6 at a concrete state crossing a day boundary. -/
theorem resetDailyStats_spec_witness :
    let s : Stats :=
      { totalChecks := 5, checksToday := 3, lastReset := "Mon Dec 01 2024"
      , clientVersions := [("1.0.0", 2)] }
    (resetDailyStats "Tue Dec 02 2024" s).checksToday = 0 ∧
    (resetDailyStats "Tue Dec 02 2024" s).lastReset = "Tue Dec 02 2024" ∧
    (resetDailyStats "Tue Dec 02 2024" s).totalChecks = s.totalChecks ∧
    (resetDailyStats "Tue Dec 02 2024" s).clientVersions = s.clientVersions ∧
    resetDailyStats "Tue Dec 02 2024" (resetDailyStats "Tue Dec 02 2024" s) =
      resetDailyStats "Tue Dec 02 2024" s :=
  resetDailyStats_spec "Tue Dec 02 2024" _ (by decide)

/-- Every single stats operation preserves `checksToday ≤ totalChecks`. -/
theorem applyOp_invariant (s : Stats) (op : StatsOp)
    (h : s.checksToday ≤ s.totalChecks) :
    (applyOp s op).checksToday ≤ (applyOp s op).totalChecks := by
  cases op with
  | check today v =>
    show (recordCheck today v s).checksToday ≤ (recordCheck today v s).totalChecks
    rw [recordCheck_checksToday, recordCheck_totalChecks]
    have h1 := resetDailyStats_checksToday_le today s
    omega
  | reset today =>
    show (resetDailyStats today s).checksToday ≤ (resetDailyStats today s).totalChecks
    rw [resetDailyStats_totalChecks]
    have h1 := resetDailyStats_checksToday_le today s
    omega

theorem runOps_invariant (ops : List StatsOp) (s : Stats)
    (h : s.checksToday ≤ s.totalChecks) :
    (runOps s ops).checksToday ≤ (runOps s ops).totalChecks := by
  induction ops generalizing s with
  | nil => exact h
  | cons op ops ih =>
    show (runOps (applyOp s op) ops).checksToday ≤ (runOps (applyOp s op) ops).totalChecks
    exact ih (applyOp s op) (applyOp_invariant s op h)

/-- C10: starting from the initial stats state, every sequence of check
recordings and daily resets keeps `0 ≤ checksToday ≤ totalChecks`. -/
theorem stats_counter_invariant (day : String) (ops : List StatsOp) :
    0 ≤ (runOps (initialStats day) ops).checksToday ∧
    (runOps (initialStats day) ops).checksToday ≤ (runOps (initialStats day) ops).totalChecks :=
  ⟨Nat.zero_le _, runOps_invariant ops (initialStats day) (Nat.le_refl 0)⟩

/-! ## Lemmas about the check handler -/

/-- The stats side effect of a check request is the same on every branch of
the handler: the counters are updated before the application lookup. -/
theorem checkHandler_stats (store : Store) (today now : String) (q : CheckQuery) (s : Stats) :
    (checkHandler store today now q s).2 = recordCheck today q.version s := by
  simp only [checkHandler]
  split
  · rfl
  · split
    · rfl
    · split <;> rfl

/-- Unknown application: the handler returns the 404 result. -/
theorem checkHandler_notFound (store : Store) (today now : String) (q : CheckQuery) (s : Stats)
    (h : storeGet store (q.app.getD "myapp") = none) :
    (checkHandler store today now q s).1 = .notFound (storeKeys store) := by
  simp only [checkHandler, h]

/-- Known application, falsy version: the handler returns the 400 result. -/
theorem checkHandler_missing (store : Store) (today now : String) (q : CheckQuery) (s : Stats)
    (info : AppInfo)
    (happ : storeGet store (q.app.getD "myapp") = some info)
    (hv : jsTruthy q.version = false) :
    (checkHandler store today now q s).1 = .missingVersion := by
  cases hq : q.version with
  | none => simp only [checkHandler, happ, hq]
  | some cv =>
    have hcv : (cv == "") = true := by
      rw [hq] at hv
      simpa [jsTruthy] using hv
    simp only [checkHandler, happ, hq, hcv, if_true]

/-- Known application and truthy version: the handler returns the decision
body in source field order. -/
theorem checkHandler_found (store : Store) (today now : String) (q : CheckQuery) (s : Stats)
    (info : AppInfo) (cv : String)
    (happ : storeGet store (q.app.getD "myapp") = some info)
    (hv : q.version = some cv) (hne : cv ≠ "") :
    (checkHandler store today now q s).1 = .ok
      [ ("updateAvailable", .jbool (decide (compareVersions cv info.latestVersion < 0)))
      , ("critical", .jbool (info.critical && decide (compareVersions cv info.minimumVersion < 0)))
      , ("currentVersion", .jstr cv)
      , ("latestVersion", .jstr info.latestVersion)
      , ("releaseDate", .jstr info.releaseDate)
      , ("downloadUrl", if compareVersions cv info.latestVersion < 0 then .jstr info.downloadUrl else .jnull)
      , ("releaseNotes", if compareVersions cv info.latestVersion < 0 then .jarr info.releaseNotes else .jnull)
      , ("changelog", if compareVersions cv info.latestVersion < 0 then .jstr info.changelog else .jnull)
      , ("minimumVersion", .jstr info.minimumVersion)
      , ("checkedAt", .jstr now)
      , ("platform", .jstr (orUnknown q.platform))
      , ("arch", .jstr (orUnknown q.arch)) ] := by
  have hcv : (cv == "") = false := by simpa using hne
  simp [checkHandler, happ, hv, hcv]

/-! ## Claims about the check endpoint -/

/-- C1 counterexample: a check request for the unknown application
`"ghost"` gets the 404 result, yet the stats state is not the same after
the call — `totalChecks` moved from 0 to 1 (and the reported version was
recorded). -/
theorem notFound_mutates_stats_counterexample :
    (checkHandler initialStore "Sun Dec 01 2024" "2024-12-01T10:00:00Z"
        { app := some "ghost", version := some "1.0.0", platform := none, arch := none }
        (initialStats "Sun Dec 01 2024")).1
      = .notFound ["myapp", "myapp-beta"] ∧
    (checkHandler initialStore "Sun Dec 01 2024" "2024-12-01T10:00:00Z"
        { app := some "ghost", version := some "1.0.0", platform := none, arch := none }
        (initialStats "Sun Dec 01 2024")).2
      ≠ initialStats "Sun Dec 01 2024" ∧
    (checkHandler initialStore "Sun Dec 01 2024" "2024-12-01T10:00:00Z"
        { app := some "ghost", version := some "1.0.0", platform := none, arch := none }
        (initialStats "Sun Dec 01 2024")).2.totalChecks = 1 ∧
    (initialStats "Sun Dec 01 2024").totalChecks = 0 := by
  refine ⟨?_, ?_, ?_, ?_⟩ <;> decide

/-- C1 amended: an unknown application yields the 404 result, but the call
still increments `totalChecks` and (after the daily reset) `checksToday`,
and bumps `clientVersions` exactly when a truthy version was reported. -/
theorem notFound_stats_effect (store : Store) (today now : String) (q : CheckQuery) (s : Stats)
    (h : storeGet store (q.app.getD "myapp") = none) :
    (checkHandler store today now q s).1 = .notFound (storeKeys store) ∧
    (checkHandler store today now q s).2 = recordCheck today q.version s ∧
    (checkHandler store today now q s).2.totalChecks = s.totalChecks + 1 ∧
    (checkHandler store today now q s).2.checksToday = (resetDailyStats today s).checksToday + 1 ∧
    (jsTruthy q.version = false →
      (checkHandler store today now q s).2.clientVersions = s.clientVersions) ∧
    (∀ cv : String, q.version = some cv → cv ≠ "" →
      (checkHandler store today now q s).2.clientVersions
        = mapSet s.clientVersions cv ((mapGet s.clientVersions cv).getD 0 + 1)) := by
  have h2 := checkHandler_stats store today now q s
  refine ⟨checkHandler_notFound store today now q s h, h2, ?_, ?_, ?_, ?_⟩
  · rw [h2, recordCheck_totalChecks]
  · rw [h2, recordCheck_checksToday]
  · intro hv
    rw [h2]
    exact recordCheck_clientVersions_falsy today q.version s hv
  · intro cv hcv hne
    rw [h2, hcv]
    exact recordCheck_clientVersions_truthy today cv s hne

/-- Witness for the amended C1 at a concrete unknown-application request. -/
theorem notFound_stats_effect_witness :
    (checkHandler initialStore "Mon Dec 02 2024" "2024-12-02T09:00:00Z"
        { app := some "ghost", version := some "2.0.0", platform := none, arch := none }
        (initialStats "Mon Dec 02 2024")).1 = .notFound (storeKeys initialStore) ∧
    (checkHandler initialStore "Mon Dec 02 2024" "2024-12-02T09:00:00Z"
        { app := some "ghost", version := some "2.0.0", platform := none, arch := none }
        (initialStats "Mon Dec 02 2024")).2
      = recordCheck "Mon Dec 02 2024" (some "2.0.0") (initialStats "Mon Dec 02 2024") ∧
    (checkHandler initialStore "Mon Dec 02 2024" "2024-12-02T09:00:00Z"
        { app := some "ghost", version := some "2.0.0", platform := none, arch := none }
        (initialStats "Mon Dec 02 2024")).2.totalChecks
      = (initialStats "Mon Dec 02 2024").totalChecks + 1 ∧
    (checkHandler initialStore "Mon Dec 02 2024" "2024-12-02T09:00:00Z"
        { app := some "ghost", version := some "2.0.0", platform := none, arch := none }
        (initialStats "Mon Dec 02 2024")).2.checksToday
      = (resetDailyStats "Mon Dec 02 2024" (initialStats "Mon Dec 02 2024")).checksToday + 1 ∧
    (jsTruthy (some "2.0.0") = false →
      (checkHandler initialStore "Mon Dec 02 2024" "2024-12-02T09:00:00Z"
          { app := some "ghost", version := some "2.0.0", platform := none, arch := none }
          (initialStats "Mon Dec 02 2024")).2.clientVersions
        = (initialStats "Mon Dec 02 2024").clientVersions) ∧
    (∀ cv : String, (some "2.0.0" : Option String) = some cv → cv ≠ "" →
      (checkHandler initialStore "Mon Dec 02 2024" "2024-12-02T09:00:00Z"
          { app := some "ghost", version := some "2.0.0", platform := none, arch := none }
          (initialStats "Mon Dec 02 2024")).2.clientVersions
        = mapSet (initialStats "Mon Dec 02 2024").clientVersions cv
            ((mapGet (initialStats "Mon Dec 02 2024").clientVersions cv).getD 0 + 1)) :=
  notFound_stats_effect initialStore "Mon Dec 02 2024" "2024-12-02T09:00:00Z"
    { app := some "ghost", version := some "2.0.0", platform := none, arch := none }
    (initialStats "Mon Dec 02 2024") (by decide)

/-- C2: for a present record and truthy client version, the decision's
`updateAvailable` field is `compare(clientVersion, latestVersion) < 0` and
its `critical` field is `record.critical AND
compare(clientVersion, minimumVersion) < 0`; a client version at or above
`latestVersion` yields `updateAvailable = false`. -/
theorem negotiation_decision_fields (store : Store) (today now : String) (q : CheckQuery)
    (s : Stats) (info : AppInfo) (cv : String)
    (happ : storeGet store (q.app.getD "myapp") = some info)
    (hv : q.version = some cv) (hne : cv ≠ "") :
    bodyGet (decisionBody (checkHandler store today now q s).1) "updateAvailable"
      = some (.jbool (decide (compareVersions cv info.latestVersion < 0))) ∧
    bodyGet (decisionBody (checkHandler store today now q s).1) "critical"
      = some (.jbool (info.critical && decide (compareVersions cv info.minimumVersion < 0))) ∧
    (0 ≤ compareVersions cv info.latestVersion →
      bodyGet (decisionBody (checkHandler store today now q s).1) "updateAvailable"
        = some (.jbool false)) := by
  rw [checkHandler_found store today now q s info cv happ hv hne]
  refine ⟨rfl, rfl, ?_⟩
  intro hge
  have hd : decide (compareVersions cv info.latestVersion < 0) = false := by
    simp [not_lt.mpr hge]
  rw [show (bodyGet (decisionBody (CheckResult.ok
      [ ("updateAvailable", .jbool (decide (compareVersions cv info.latestVersion < 0)))
      , ("critical", .jbool (info.critical && decide (compareVersions cv info.minimumVersion < 0)))
      , ("currentVersion", .jstr cv)
      , ("latestVersion", .jstr info.latestVersion)
      , ("releaseDate", .jstr info.releaseDate)
      , ("downloadUrl", if compareVersions cv info.latestVersion < 0 then .jstr info.downloadUrl else .jnull)
      , ("releaseNotes", if compareVersions cv info.latestVersion < 0 then .jarr info.releaseNotes else .jnull)
      , ("changelog", if compareVersions cv info.latestVersion < 0 then .jstr info.changelog else .jnull)
      , ("minimumVersion", .jstr info.minimumVersion)
      , ("checkedAt", .jstr now)
      , ("platform", .jstr (orUnknown q.platform))
      , ("arch", .jstr (orUnknown q.arch)) ])) "updateAvailable")
    = some (.jbool (decide (compareVersions cv info.latestVersion < 0))) from rfl, hd]

/-- Witness for C2: the spec's first negotiation scenario, client `"1.0.0"`
against the initial `myapp` record (`latestVersion = "1.2.0"`). -/
theorem negotiation_decision_fields_witness :
    bodyGet (decisionBody (checkHandler initialStore "Sun Dec 01 2024" "2024-12-01T10:00:00Z"
        { app := none, version := some "1.0.0", platform := some "darwin", arch := some "arm64" }
        (initialStats "Sun Dec 01 2024")).1) "updateAvailable"
      = some (.jbool (decide (compareVersions "1.0.0" myappInfo.latestVersion < 0))) ∧
    bodyGet (decisionBody (checkHandler initialStore "Sun Dec 01 2024" "2024-12-01T10:00:00Z"
        { app := none, version := some "1.0.0", platform := some "darwin", arch := some "arm64" }
        (initialStats "Sun Dec 01 2024")).1) "critical"
      = some (.jbool (myappInfo.critical && decide (compareVersions "1.0.0" myappInfo.minimumVersion < 0))) ∧
    (0 ≤ compareVersions "1.0.0" myappInfo.latestVersion →
      bodyGet (decisionBody (checkHandler initialStore "Sun Dec 01 2024" "2024-12-01T10:00:00Z"
          { app := none, version := some "1.0.0", platform := some "darwin", arch := some "arm64" }
          (initialStats "Sun Dec 01 2024")).1) "updateAvailable"
        = some (.jbool false)) :=
  negotiation_decision_fields initialStore "Sun Dec 01 2024" "2024-12-01T10:00:00Z"
    { app := none, version := some "1.0.0", platform := some "darwin", arch := some "arm64" }
    (initialStats "Sun Dec 01 2024") myappInfo "1.0.0" (by decide) rfl (by decide)

/-- C3 counterexample: a client already on `latestVersion` gets
`updateAvailable = false`, yet `downloadUrl`, `releaseNotes` and
`changelog` are still present in the decision body — with value `null` —
rather than absent. -/
theorem gated_fields_null_counterexample :
    bodyGet (decisionBody (checkHandler initialStore "Sun Dec 01 2024" "2024-12-01T10:00:00Z"
        { app := none, version := some "1.2.0", platform := none, arch := none }
        (initialStats "Sun Dec 01 2024")).1) "updateAvailable" = some (.jbool false) ∧
    ("downloadUrl", JVal.jnull) ∈ decisionBody (checkHandler initialStore "Sun Dec 01 2024"
        "2024-12-01T10:00:00Z"
        { app := none, version := some "1.2.0", platform := none, arch := none }
        (initialStats "Sun Dec 01 2024")).1 ∧
    ("releaseNotes", JVal.jnull) ∈ decisionBody (checkHandler initialStore "Sun Dec 01 2024"
        "2024-12-01T10:00:00Z"
        { app := none, version := some "1.2.0", platform := none, arch := none }
        (initialStats "Sun Dec 01 2024")).1 ∧
    ("changelog", JVal.jnull) ∈ decisionBody (checkHandler initialStore "Sun Dec 01 2024"
        "2024-12-01T10:00:00Z"
        { app := none, version := some "1.2.0", platform := none, arch := none }
        (initialStats "Sun Dec 01 2024")).1 := by
  refine ⟨?_, ?_, ?_, ?_⟩ <;> decide

/-- C3 amended: `downloadUrl`, `releaseNotes` and `changelog` carry the
record's values exactly when `updateAvailable` is true; when it is false
they are still present in the decision, but with value `null`. -/
theorem gated_fields_null (store : Store) (today now : String) (q : CheckQuery)
    (s : Stats) (info : AppInfo) (cv : String)
    (happ : storeGet store (q.app.getD "myapp") = some info)
    (hv : q.version = some cv) (hne : cv ≠ "") :
    (compareVersions cv info.latestVersion < 0 →
      bodyGet (decisionBody (checkHandler store today now q s).1) "downloadUrl"
        = some (.jstr info.downloadUrl) ∧
      bodyGet (decisionBody (checkHandler store today now q s).1) "releaseNotes"
        = some (.jarr info.releaseNotes) ∧
      bodyGet (decisionBody (checkHandler store today now q s).1) "changelog"
        = some (.jstr info.changelog)) ∧
    (0 ≤ compareVersions cv info.latestVersion →
      bodyGet (decisionBody (checkHandler store today now q s).1) "downloadUrl"
        = some JVal.jnull ∧
      bodyGet (decisionBody (checkHandler store today now q s).1) "releaseNotes"
        = some JVal.jnull ∧
      bodyGet (decisionBody (checkHandler store today now q s).1) "changelog"
        = some JVal.jnull) := by
  rw [checkHandler_found store today now q s info cv happ hv hne]
  constructor
  · intro hlt
    refine ⟨?_, ?_, ?_⟩ <;> simp [bodyGet, decisionBody, List.find?, hlt]
  · intro hge
    have hlt : ¬ compareVersions cv info.latestVersion < 0 := not_lt.mpr hge
    refine ⟨?_, ?_, ?_⟩ <;> simp [bodyGet, decisionBody, List.find?, hlt]

/-- Witness for the amended C3 at the spec's equal-version scenario
(client `"1.2.0"` equal to `myapp`'s `latestVersion`). -/
theorem gated_fields_null_witness :
    (compareVersions "1.2.0" myappInfo.latestVersion < 0 →
      bodyGet (decisionBody (checkHandler initialStore "Sun Dec 01 2024" "2024-12-01T10:00:00Z"
          { app := none, version := some "1.2.0", platform := none, arch := none }
          (initialStats "Sun Dec 01 2024")).1) "downloadUrl"
        = some (.jstr myappInfo.downloadUrl) ∧
      bodyGet (decisionBody (checkHandler initialStore "Sun Dec 01 2024" "2024-12-01T10:00:00Z"
          { app := none, version := some "1.2.0", platform := none, arch := none }
          (initialStats "Sun Dec 01 2024")).1) "releaseNotes"
        = some (.jarr myappInfo.releaseNotes) ∧
      bodyGet (decisionBody (checkHandler initialStore "Sun Dec 01 2024" "2024-12-01T10:00:00Z"
          { app := none, version := some "1.2.0", platform := none, arch := none }
          (initialStats "Sun Dec 01 2024")).1) "changelog"
        = some (.jstr myappInfo.changelog)) ∧
    (0 ≤ compareVersions "1.2.0" myappInfo.latestVersion →
      bodyGet (decisionBody (checkHandler initialStore "Sun Dec 01 2024" "2024-12-01T10:00:00Z"
          { app := none, version := some "1.2.0", platform := none, arch := none }
          (initialStats "Sun Dec 01 2024")).1) "downloadUrl"
        = some JVal.jnull ∧
      bodyGet (decisionBody (checkHandler initialStore "Sun Dec 01 2024" "2024-12-01T10:00:00Z"
          { app := none, version := some "1.2.0", platform := none, arch := none }
          (initialStats "Sun Dec 01 2024")).1) "releaseNotes"
        = some JVal.jnull ∧
      bodyGet (decisionBody (checkHandler initialStore "Sun Dec 01 2024" "2024-12-01T10:00:00Z"
          { app := none, version := some "1.2.0", platform := none, arch := none }
          (initialStats "Sun Dec 01 2024")).1) "changelog"
        = some JVal.jnull) :=
  gated_fields_null initialStore "Sun Dec 01 2024" "2024-12-01T10:00:00Z"
    { app := none, version := some "1.2.0", platform := none, arch := none }
    (initialStats "Sun Dec 01 2024") myappInfo "1.2.0" (by decide) rfl (by decide)

/-- C5: a known application with a falsy client version yields the 400
result, while `totalChecks` and (after the daily reset) `checksToday` are
each incremented by one — literally by one from the pre-call value on a
same-day call — and `clientVersions` is unchanged. -/
theorem missingVersion_stats_effect (store : Store) (today now : String) (q : CheckQuery)
    (s : Stats) (info : AppInfo)
    (happ : storeGet store (q.app.getD "myapp") = some info)
    (hv : jsTruthy q.version = false) :
    (checkHandler store today now q s).1 = .missingVersion ∧
    (checkHandler store today now q s).2.totalChecks = s.totalChecks + 1 ∧
    (checkHandler store today now q s).2.checksToday = (resetDailyStats today s).checksToday + 1 ∧
    (s.lastReset = today → (checkHandler store today now q s).2.checksToday = s.checksToday + 1) ∧
    (checkHandler store today now q s).2.clientVersions = s.clientVersions := by
  have h2 := checkHandler_stats store today now q s
  refine ⟨checkHandler_missing store today now q s info happ hv, ?_, ?_, ?_, ?_⟩
  · rw [h2, recordCheck_totalChecks]
  · rw [h2, recordCheck_checksToday]
  · intro hday
    rw [h2, recordCheck_checksToday]
    simp [resetDailyStats, hday]
  · rw [h2]
    exact recordCheck_clientVersions_falsy today q.version s hv

/-- Witness for C5: a same-day request for `myapp` with no version at all. -/
theorem missingVersion_stats_effect_witness :
    (checkHandler initialStore "Sun Dec 01 2024" "2024-12-01T10:00:00Z"
        { app := some "myapp", version := none, platform := none, arch := none }
        (initialStats "Sun Dec 01 2024")).1 = .missingVersion ∧
    (checkHandler initialStore "Sun Dec 01 2024" "2024-12-01T10:00:00Z"
        { app := some "myapp", version := none, platform := none, arch := none }
        (initialStats "Sun Dec 01 2024")).2.totalChecks
      = (initialStats "Sun Dec 01 2024").totalChecks + 1 ∧
    (checkHandler initialStore "Sun Dec 01 2024" "2024-12-01T10:00:00Z"
        { app := some "myapp", version := none, platform := none, arch := none }
        (initialStats "Sun Dec 01 2024")).2.checksToday
      = (resetDailyStats "Sun Dec 01 2024" (initialStats "Sun Dec 01 2024")).checksToday + 1 ∧
    ((initialStats "Sun Dec 01 2024").lastReset = "Sun Dec 01 2024" →
      (checkHandler initialStore "Sun Dec 01 2024" "2024-12-01T10:00:00Z"
          { app := some "myapp", version := none, platform := none, arch := none }
          (initialStats "Sun Dec 01 2024")).2.checksToday
        = (initialStats "Sun Dec 01 2024").checksToday + 1) ∧
    (checkHandler initialStore "Sun Dec 01 2024" "2024-12-01T10:00:00Z"
        { app := some "myapp", version := none, platform := none, arch := none }
        (initialStats "Sun Dec 01 2024")).2.clientVersions
      = (initialStats "Sun Dec 01 2024").clientVersions :=
  missingVersion_stats_effect initialStore "Sun Dec 01 2024" "2024-12-01T10:00:00Z"
    { app := some "myapp", version := none, platform := none, arch := none }
    (initialStats "Sun Dec 01 2024") myappInfo (by decide) rfl

/-! ## Claims about the fingerprint filter -/

theorem filterBoolean_append (as bs : List (Option String)) :
    filterBoolean (as ++ bs) = filterBoolean as ++ filterBoolean bs := by
  induction as with
  | nil => rfl
  | cons a as ih =>
    cases a with
    | none => simpa [filterBoolean] using ih
    | some s =>
      simp only [List.cons_append, filterBoolean]
      split
      · exact ih
      · simp [ih]

theorem filterBoolean_no_empty (xs : List (Option String)) : "" ∉ filterBoolean xs := by
  induction xs with
  | nil => simp [filterBoolean]
  | cons a xs ih =>
    cases a with
    | none => simpa [filterBoolean] using ih
    | some s =>
      simp only [filterBoolean]
      split
      · exact ih
      · rename_i h
        simp only [List.mem_cons, not_or]
        exact ⟨fun he => h (by simp [he.symm]), ih⟩

/-- C4 counterexample: two requests identical except that `accept-language`
is the empty string in one and absent in the other produce the same
filtered component list (same count) and the same joined digest input; the
empty string is not kept. -/
theorem fingerprint_empty_string_counterexample :
    fingerprintComponents
        { ip := some "203.0.113.7", userAgent := some "Mozilla/5.0"
        , acceptLanguage := some "", acceptEncoding := some "gzip"
        , xForwardedFor := none, secChUaPlatform := none }
      = fingerprintComponents
        { ip := some "203.0.113.7", userAgent := some "Mozilla/5.0"
        , acceptLanguage := none, acceptEncoding := some "gzip"
        , xForwardedFor := none, secChUaPlatform := none } ∧
    (fingerprintComponents
        { ip := some "203.0.113.7", userAgent := some "Mozilla/5.0"
        , acceptLanguage := some "", acceptEncoding := some "gzip"
        , xForwardedFor := none, secChUaPlatform := none }).length
      = (fingerprintComponents
        { ip := some "203.0.113.7", userAgent := some "Mozilla/5.0"
        , acceptLanguage := none, acceptEncoding := some "gzip"
        , xForwardedFor := none, secChUaPlatform := none }).length ∧
    "" ∉ fingerprintComponents
        { ip := some "203.0.113.7", userAgent := some "Mozilla/5.0"
        , acceptLanguage := some "", acceptEncoding := some "gzip"
        , xForwardedFor := none, secChUaPlatform := none } ∧
    fingerprintInput
        { ip := some "203.0.113.7", userAgent := some "Mozilla/5.0"
        , acceptLanguage := some "", acceptEncoding := some "gzip"
        , xForwardedFor := none, secChUaPlatform := none }
      = fingerprintInput
        { ip := some "203.0.113.7", userAgent := some "Mozilla/5.0"
        , acceptLanguage := none, acceptEncoding := some "gzip"
        , xForwardedFor := none, secChUaPlatform := none } := by
  refine ⟨?_, ?_, ?_, ?_⟩ <;> decide

/-- C4 amended: `.filter(Boolean)` drops every falsy attribute — an
empty-string attribute is removed exactly like a missing one, so attribute
lists differing only in missing-versus-empty yield identical filtered
component lists, which never contain the empty string. -/
theorem fingerprint_filter_drops_falsy (pre post : List (Option String)) :
    filterBoolean (pre ++ some "" :: post) = filterBoolean (pre ++ none :: post) ∧
    "" ∉ filterBoolean (pre ++ some "" :: post) := by
  constructor
  · rw [filterBoolean_append, filterBoolean_append]
    have h1 : filterBoolean (some "" :: post) = filterBoolean post := by
      simp [filterBoolean]
    have h2 : filterBoolean (none :: post) = filterBoolean post := rfl
    rw [h1, h2]
  · exact filterBoolean_no_empty _

end ReKo
